import Mathlib

/-!
Shallow embedding of the authentication core of `tushg/tgfinance`
(Go backend): password policy (`backend/pkg/auth/password.go`),
JWT token service (`backend/pkg/auth`), and the authentication
middleware and authorization guards
(`backend/internal/middleware/auth.go`).

Go strings are modelled as Lean `String` (valid UTF-8); the Go `len` on a
string is byte length, modelled as `String.utf8ByteSize`, while
`for _, char := range s` iterates over decoded code points, modelled as
iteration over `String.data`.
-/

namespace TgFinance

/-! ## Character classes

Modelled from the Go standard `unicode` package (an external dependency of
`password.go`): `IsUpper`, `IsLower`, `IsNumber`, `IsPunct`, `IsSymbol`.
The tables below are faithful to the Unicode categories on the ASCII and
Latin-1 range (code points up to U+00FF); code points above U+00FF are
left unclassified, which is sound for every concrete input considered in
this development. -/

/-- Go `unicode.IsUpper` on the ASCII/Latin-1 range: category Lu.
U+00D7 is the multiplication sign (Sm), not a letter. -/
def goIsUpper (c : Char) : Bool :=
  ('A' ≤ c && c ≤ 'Z') || ('À' ≤ c && c ≤ 'Þ' && c ≠ '×')

/-- Go `unicode.IsLower` on the ASCII/Latin-1 range: category Ll.
U+00F7 is the division sign (Sm); U+00B5 (micro sign) is Ll. -/
def goIsLower (c : Char) : Bool :=
  ('a' ≤ c && c ≤ 'z') || ('ß' ≤ c && c ≤ 'ÿ' && c ≠ '÷') || c = 'µ'

/-- Go `unicode.IsNumber` on the ASCII/Latin-1 range: category N,
which adds the superscripts and vulgar fractions to the decimal digits. -/
def goIsNumber (c : Char) : Bool :=
  ('0' ≤ c && c ≤ '9') || c = '¹' || c = '²' || c = '³' ||
    c = '¼' || c = '½' || c = '¾'

/-- Go `unicode.IsPunct(c) || unicode.IsSymbol(c)` on the ASCII/Latin-1
range: every printable ASCII character that is not alphanumeric and not
the space, plus the Latin-1 punctuation/symbol block U+00A1–U+00BF
(minus the letters, numbers and the soft hyphen U+00AD inside it) and
the two signs U+00D7, U+00F7. -/
def goIsSpecial (c : Char) : Bool :=
  ('!' ≤ c && c ≤ '/') || (':' ≤ c && c ≤ '@') ||
    ('[' ≤ c && c ≤ '\x60') || ('\x7b' ≤ c && c ≤ '~') ||
    ('¡' ≤ c && c ≤ '¿' && !(c = 'ª' || c = 'µ' || c = '\xad' ||
      c = '¹' || c = '²' || c = '³' || c = '¼' || c = '½' || c = '¾')) ||
    c = '×' || c = '÷'

/-! ## Password policy (`backend/pkg/auth/password.go`) -/

/-- The four character-variety flags accumulated by the `range` loops of
`validatePasswordStrength` and `GetPasswordStrength`. -/
structure ClassState where
  hasUpper : Bool
  hasLower : Bool
  hasNumber : Bool
  hasSpecial : Bool
deriving Repr, DecidableEq

/-- One step of the Go loop body: the `switch` tries the four cases in
order and marks at most one flag per character. -/
def classifyChar (st : ClassState) (c : Char) : ClassState :=
  if goIsUpper c then { st with hasUpper := true }
  else if goIsLower c then { st with hasLower := true }
  else if goIsNumber c then { st with hasNumber := true }
  else if goIsSpecial c then { st with hasSpecial := true }
  else st

/-- The whole `for _, char := range password` scan, starting from all
flags false. -/
def scanClasses (p : String) : ClassState :=
  p.data.foldl classifyChar ⟨false, false, false, false⟩

def msgTooShort : String := "password must be at least 8 characters long"
def msgTooLong : String := "password must be less than 128 characters"
def msgNoUpper : String := "password must contain at least one uppercase letter"
def msgNoLower : String := "password must contain at least one lowercase letter"
def msgNoNumber : String := "password must contain at least one number"
def msgNoSpecial : String := "password must contain at least one special character"

/-- Go `(pm *PasswordManager) validatePasswordStrength`: sequential
checks, each returning its error immediately (`none` models a `nil`
error). `len(password)` is the UTF-8 byte length. -/
def validatePasswordStrength (p : String) : Option String :=
  if p.utf8ByteSize < 8 then some msgTooShort
  else if p.utf8ByteSize > 128 then some msgTooLong
  else
    let st := scanClasses p
    if !st.hasUpper then some msgNoUpper
    else if !st.hasLower then some msgNoLower
    else if !st.hasNumber then some msgNoNumber
    else if !st.hasSpecial then some msgNoSpecial
    else none

/-- Go `IsPasswordValid`: delegates to `validatePasswordStrength`. -/
def isPasswordValid (p : String) : Option String :=
  validatePasswordStrength p

/-- Modelled from the spec (§4.2): the rule set of "Validate strength"
re-read as the spec words it — all six checks performed independently,
with one entry appended per violated rule, in the rule order of the code.
Used only to compare the reading of the spec against the source. -/
def specStrengthViolations (p : String) : List String :=
  (if p.utf8ByteSize < 8 then [msgTooShort] else []) ++
  (if p.utf8ByteSize > 128 then [msgTooLong] else []) ++
  (if !(scanClasses p).hasUpper then [msgNoUpper] else []) ++
  (if !(scanClasses p).hasLower then [msgNoLower] else []) ++
  (if !(scanClasses p).hasNumber then [msgNoNumber] else []) ++
  (if !(scanClasses p).hasSpecial then [msgNoSpecial] else [])

/-- Go `GetPasswordStrength`: additive score, never clamped; each
summand is one `score += ...` statement of the source, in order. -/
def getPasswordStrength (p : String) : Nat :=
  let st := scanClasses p
  (if p.utf8ByteSize ≥ 8 then 20 else 0) +
  (if p.utf8ByteSize ≥ 12 then 10 else 0) +
  (if p.utf8ByteSize ≥ 16 then 10 else 0) +
  (if st.hasUpper then 15 else 0) +
  (if st.hasLower then 15 else 0) +
  (if st.hasNumber then 15 else 0) +
  (if st.hasSpecial then 15 else 0) +
  (if st.hasUpper && st.hasLower then 10 else 0)

/-- Go `GetPasswordStrengthLabel`: switch on the score. -/
def getPasswordStrengthLabel (p : String) : String :=
  let score := getPasswordStrength p
  if score ≥ 80 then "Very Strong"
  else if score ≥ 60 then "Strong"
  else if score ≥ 40 then "Medium"
  else if score ≥ 20 then "Weak"
  else "Very Weak"

/-! ## Token service (`backend/pkg/auth`, JWT manager)

The `golang-jwt/jwt/v5` library is an external dependency; a token is
modelled as its decoded form — a signing-algorithm tag, the claims
payload, and a signature — and `SignedString` / `ParseWithClaims` as
signing and checking with an arbitrary deterministic keyed MAC function
(HMAC is deterministic), passed in as a parameter `mac`. Timestamps are
`Int` seconds (JWT NumericDate). The v5 parser calls the key function
first (where the source rejects non-HMAC methods), then verifies the
signature, then validates `exp` (current time must be before it) and
`nbf` (current time must not be before it); `iat` is not validated by
default. -/

/-- Go `uuid.UUID` (external `google/uuid`), reduced to an opaque
identifier with a canonical string form. -/
structure UUID where
  val : Nat
deriving Repr, DecidableEq

/-- Rendering used by `userID.String()`. -/
def UUID.render (u : UUID) : String := toString u.val

/-- JWT signing-algorithm tags; `hs256`, `hs384`, `hs512` are the
symmetric HMAC family (`*jwt.SigningMethodHMAC`). -/
inductive Alg where
  | hs256 | hs384 | hs512 | rs256 | es256 | algNone
deriving Repr, DecidableEq

/-- Whether the method is an instance of `*jwt.SigningMethodHMAC`
(the `token.Method.(*jwt.SigningMethodHMAC)` check in `ValidateToken`). -/
def Alg.isHMAC : Alg → Bool
  | .hs256 | .hs384 | .hs512 => true
  | _ => false

/-- The `jwt.RegisteredClaims` fields set by this code base. -/
structure RegisteredClaims where
  expiresAt : Int
  issuedAt : Int
  notBefore : Int
  issuer : String
  subject : String
deriving Repr, DecidableEq

/-- Go `auth.Claims`: `UserID`, `Email`, embedded registered claims.
`Email` is a plain Go `string`; its zero value `""` is what a claims
struct carries when no email was set (refresh tokens). -/
structure Claims where
  userID : UUID
  email : String
  registered : RegisteredClaims
deriving Repr, DecidableEq

/-- A decoded token: header algorithm tag, payload, signature. -/
structure Token where
  alg : Alg
  claims : Claims
  sig : Nat
deriving Repr, DecidableEq

/-- A deterministic keyed MAC over (algorithm, key, payload); stands for
HMAC-SHA256/384/512 computed by the jwt library. -/
def Mac := Alg → String → Claims → Nat

/-- Go `auth.JWTManager`. -/
structure JWTManager where
  secretKey : String
  issuer : String
deriving Repr, DecidableEq

/-- Go `NewJWTManager`: reads `JWT_SECRET` from the environment and
falls back to the hardcoded default when it is empty or unset; the
issuer is the fixed string. `env` is the value `os.Getenv` returns
(`""` when the variable is absent). -/
def newJWTManager (env : String) : JWTManager :=
  { secretKey := if env = "" then "your-super-secret-jwt-key-change-in-production" else env
    issuer := "tgfinance" }

/-- Go `GenerateToken`: access token, 24-hour lifetime, signed HS256. -/
def generateToken (j : JWTManager) (mac : Mac) (now : Int) (userID : UUID)
    (email : String) : Token :=
  let claims : Claims :=
    { userID := userID
      email := email
      registered :=
        { expiresAt := now + 24 * 3600
          issuedAt := now
          notBefore := now
          issuer := j.issuer
          subject := userID.render } }
  { alg := .hs256, claims := claims, sig := mac .hs256 j.secretKey claims }

/-- Go `GenerateRefreshToken`: 7×24-hour lifetime, no email set (the
struct literal leaves `Email` at its zero value), signed HS256. -/
def generateRefreshToken (j : JWTManager) (mac : Mac) (now : Int)
    (userID : UUID) : Token :=
  let claims : Claims :=
    { userID := userID
      email := ""
      registered :=
        { expiresAt := now + 7 * 24 * 3600
          issuedAt := now
          notBefore := now
          issuer := j.issuer
          subject := userID.render } }
  { alg := .hs256, claims := claims, sig := mac .hs256 j.secretKey claims }

/-- The collapsed error values `ValidateToken` can surface (the source
returns them all as a generic `error`). -/
inductive AuthError where
  | unexpectedSigningMethod (alg : Alg)
  | signatureInvalid
  | tokenExpired
  | tokenNotValidYet
deriving Repr, DecidableEq

/-- Go `ValidateToken`: the key function rejects any non-HMAC method
before anything else; then the library verifies the signature against
the secret key of the manager and validates `exp` and `nbf` against the
current time. -/
def validateToken (j : JWTManager) (mac : Mac) (now : Int) (tok : Token) :
    Except AuthError Claims :=
  if !tok.alg.isHMAC then .error (.unexpectedSigningMethod tok.alg)
  else if tok.sig ≠ mac tok.alg j.secretKey tok.claims then .error .signatureInvalid
  else if !(now < tok.claims.registered.expiresAt) then .error .tokenExpired
  else if now < tok.claims.registered.notBefore then .error .tokenNotValidYet
  else .ok tok.claims

/-- Go `ExtractUserIDFromToken`: validate, then project the user id. -/
def extractUserIDFromToken (j : JWTManager) (mac : Mac) (now : Int)
    (tok : Token) : Except AuthError UUID :=
  match validateToken j mac now tok with
  | .error e => .error e
  | .ok claims => .ok claims.userID

/-! ## Authentication middleware and guards
(`backend/internal/middleware/auth.go`)

Request contexts (`context.WithValue`) are dynamically typed in Go: a
value stored under a string key has an interface type, and readers cast
it back with a type assertion `v.(string)` that panics when the dynamic
type differs. The context is modelled as an association list of
(key, dynamic value) pairs, innermost value first, and the unchecked
type assertion as a partial projection whose `none` case is a panic. -/

/-- A dynamically typed context value: the middleware stores Go
`string`s and one `uuid.UUID`. -/
inductive GoValue where
  | str (s : String)
  | uuid (u : UUID)
deriving Repr, DecidableEq

/-- Go `v.(string)`: succeeds only when the dynamic type is `string`;
on any other dynamic type the assertion panics (`none`). -/
def assertString : GoValue → Option String
  | .str s => some s
  | _ => none

/-- A request context; `ctx.Value(key)` returns the innermost value
stored under the key, or `nil` (`none`). -/
abbrev Ctx := List (String × GoValue)

/-- Go `ctx.Value(key)`. -/
def ctxValue (ctx : Ctx) (k : String) : Option GoValue :=
  List.lookup k ctx

/-- The parts of an `*http.Request` the middleware reads.
`authHeader` is `r.Header.Get("Authorization")`, which yields `""`
when the header is absent. -/
structure Request where
  path : String
  method : String
  authHeader : String
  ctx : Ctx
deriving Repr, DecidableEq

/-- Go `sendErrorResponse` body:
`fmt.Sprintf` of the fixed JSON shape with the code and message. -/
def errorBody (code : Nat) (message : String) : String :=
  "\x7b\"error\":\x7b\"code\":" ++ toString code ++
    ",\"message\":\"" ++ message ++ "\"\x7d\x7d"

/-- Outcome of the `Authenticate` middleware on one request: either the
next handler runs with the (possibly extended) request, or an error
response is written and the chain stops. -/
inductive AuthOutcome where
  | next (r : Request)
  | respond (status : Nat) (contentType : String) (body : String)
deriving Repr, DecidableEq

/-- Outcome of a guard on one request: pass through, write an error
response, or hit a run-time panic (failed type assertion). -/
inductive GuardOutcome where
  | next
  | respond (status : Nat) (contentType : String) (body : String)
  | panicked
deriving Repr, DecidableEq

/-- Go `shouldSkipAuth`: the static allow-list lookup, then the
`OPTIONS` wildcard. -/
def shouldSkipAuth (path method : String) : Bool :=
  let methods : Option (List String) :=
    if path = "/health" then some ["GET"]
    else if path = "/metrics" then some ["GET"]
    else if path = "/api/v1/auth/login" then some ["POST"]
    else if path = "/api/v1/auth/register" then some ["POST"]
    else if path = "/api/v1/auth/refresh" then some ["POST"]
    else none
  (match methods with
   | some ms => ms.contains method
   | none => false) || method = "OPTIONS"

/-- Go `extractToken`: requires a non-empty header, the literal
`"Bearer "` scheme prefix (`strings.HasPrefix`, here on the decoded
character list — the prefix is ASCII, so byte and character prefixes
agree), and a non-empty remainder after `strings.TrimPrefix` drops the
7 prefix characters. (The error strings of the source name the missing
piece; only their presence matters downstream, every one is collapsed
to the same 401.) -/
def extractToken (r : Request) : Except String String :=
  if r.authHeader = "" then .error "authorization header is required"
  else if !(List.isPrefixOf "Bearer ".data r.authHeader.data) then
    .error "authorization header must start with Bearer"
  else
    let token := String.mk (r.authHeader.data.drop 7)
    if token = "" then .error "token is empty"
    else .ok token

/-- Go `Authenticate`: skip the allow-list, else extract and validate
the token and attach `user_id` (a `uuid.UUID` value!), `user_email`
and the fixed role `"user"` to the context. `validate` stands for
`m.jwtManager.ValidateToken`. -/
def authenticate (validate : String → Except AuthError Claims)
    (r : Request) : AuthOutcome :=
  if shouldSkipAuth r.path r.method then .next r
  else
    match extractToken r with
    | .error _ =>
        .respond 401 "application/json"
          (errorBody 401 "Invalid or missing authorization token")
    | .ok token =>
        match validate token with
        | .error _ =>
            .respond 401 "application/json"
              (errorBody 401 "Invalid or expired token")
        | .ok claims =>
            .next { r with
              ctx := ("user_role", .str "user") ::
                ("user_email", .str claims.email) ::
                ("user_id", .uuid claims.userID) :: r.ctx }

/-- Go `RequireRole(requiredRole)`: missing role → 401; the stored
value is cast with `userRole.(string)`; mismatch → 403. -/
def requireRole (requiredRole : String) (ctx : Ctx) : GuardOutcome :=
  match ctxValue ctx "user_role" with
  | none => .respond 401 "application/json"
      (errorBody 401 "User role not found in context")
  | some v =>
      match assertString v with
      | none => .panicked
      | some role =>
          if role ≠ requiredRole then
            .respond 403 "application/json"
              (errorBody 403 "Insufficient permissions")
          else .next

/-- Go `RequireAdmin`: `RequireRole("admin")`. -/
def requireAdmin (ctx : Ctx) : GuardOutcome :=
  requireRole "admin" ctx

/-- The `for i, part := range pathParts` loop of `RequireUser`: at the
first segment equal to `"users"` that has a successor, the stored
`user_id` value is cast with `userID.(string)` and compared with the
successor segment; mismatch → 403, match → break (pass). A trailing
`"users"` with no successor just lets the loop run on. -/
def requireUserLoop (v : GoValue) : List String → GuardOutcome
  | [] => .next
  | part :: rest =>
      if part = "users" then
        match rest with
        | [] => requireUserLoop v rest
        | pathUserID :: _ =>
            match assertString v with
            | none => .panicked
            | some s =>
                if pathUserID ≠ s then
                  .respond 403 "application/json"
                    (errorBody 403 "Cannot access another users resources")
                else .next
      else requireUserLoop v rest

/-- Helper for `strings.Split(path, "/")`: walk the characters,
cutting a new segment at every slash; `acc` holds the current segment
reversed. -/
def splitSlashAux : List Char → List Char → List String
  | [], acc => [String.mk acc.reverse]
  | c :: rest, acc =>
      if c = '/' then String.mk acc.reverse :: splitSlashAux rest []
      else splitSlashAux rest (c :: acc)

/-- Go `strings.Split(s, "/")` (the separator is a single ASCII
character, so the byte-level split agrees with this character-level
one). -/
def splitSlash (s : String) : List String :=
  splitSlashAux s.data []

/-- Go `RequireUser`: missing `user_id` → 401, else scan
`strings.Split(r.URL.Path, "/")` with `requireUserLoop`. -/
def requireUser (ctx : Ctx) (path : String) : GuardOutcome :=
  match ctxValue ctx "user_id" with
  | none => .respond 401 "application/json"
      (errorBody 401 "User ID not found in context")
  | some v => requireUserLoop v (splitSlash path)


/-! ## Claims -/

/-- C3 counterexample: a 16-character password with all four character
classes and mixed case scores 110, outside the claimed 0–100 range. -/
theorem C3_score_110_cex :
    getPasswordStrength "Abcdefghijklmn1!" = 110 ∧
    ¬(getPasswordStrength "Abcdefghijklmn1!" ≤ 100) := by decide

/-- C3 (amended): for every password, `GetPasswordStrength` returns an
integer between 0 and 110 inclusive (the sum is of non-negative
summands, so the lower bound is the type). -/
theorem C3_score_bounded (p : String) : getPasswordStrength p ≤ 110 := by
  simp only [getPasswordStrength]
  split_ifs <;> omega

/-- C2 counterexample: on `"weak"` the uppercase rule is violated, yet
the error set returned by `validatePasswordStrength` is the single
minimum-length entry — it does not contain one entry for every
violated rule. -/
theorem C2_single_error_cex :
    (scanClasses "weak").hasUpper = false ∧
    (validatePasswordStrength "weak").toList = [msgTooShort] ∧
    msgNoUpper ∉ (validatePasswordStrength "weak").toList := by decide

/-- C2 (amended): `validatePasswordStrength` checks the rules in a
fixed order (minimum length, maximum length, uppercase, lowercase,
digit, special) and short-circuits, returning exactly the first
violated rule — the head of the full violation list — and no error
exactly when every rule passes. -/
theorem C2_first_violation (p : String) :
    validatePasswordStrength p = (specStrengthViolations p).head? := by
  unfold validatePasswordStrength specStrengthViolations
  split_ifs <;> simp_all

/-- C9: `GetPasswordStrengthLabel` is determined by the score
thresholds 80/60/40/20, and the two worked examples label as claimed:
`"Abc123!@#"` scores 90 → `"Very Strong"`, `"password123"` scores 50 →
`"Medium"`. -/
theorem C9_label_thresholds :
    (∀ p : String,
        getPasswordStrengthLabel p =
          (if getPasswordStrength p ≥ 80 then "Very Strong"
           else if getPasswordStrength p ≥ 60 then "Strong"
           else if getPasswordStrength p ≥ 40 then "Medium"
           else if getPasswordStrength p ≥ 20 then "Weak"
           else "Very Weak")) ∧
    getPasswordStrengthLabel "Abc123!@#" = "Very Strong" ∧
    getPasswordStrengthLabel "password123" = "Medium" :=
  ⟨fun _ => rfl, by decide, by decide⟩

/-- C10: the length rules measure UTF-8 byte length — any password of
at least 8 bytes passes the minimum-length rule and collects the +20
length bonus — while the character-class rules classify decoded code
points; the four-character, eight-byte password of 2-byte runes
`"éßàü"` passes the length rule and scores at least 20, and non-ASCII
code points are classified (uppercase É, lowercase é) per rune. -/
theorem C10_byte_length_rune_classes :
    (∀ p : String, 8 ≤ p.utf8ByteSize →
        validatePasswordStrength p ≠ some msgTooShort ∧
        20 ≤ getPasswordStrength p) ∧
    ("éßàü" : String).length = 4 ∧
    ("éßàü" : String).utf8ByteSize = 8 ∧
    validatePasswordStrength "éßàü" ≠ some msgTooShort ∧
    20 ≤ getPasswordStrength "éßàü" ∧
    scanClasses "Éé1!" = ⟨true, true, true, true⟩ := by
  refine ⟨fun p h => ⟨?_, ?_⟩, by decide, by decide, by decide, by decide,
    by decide⟩
  · unfold validatePasswordStrength
    rw [if_neg (by omega)]
    dsimp only
    split_ifs <;>
      simp [msgTooShort, msgTooLong, msgNoUpper, msgNoLower, msgNoNumber,
        msgNoSpecial]
  · simp only [getPasswordStrength]
    split_ifs <;> omega

/-- C10 witness: the universal part instantiated at the concrete
eight-byte password. -/
theorem C10_byte_length_rune_classes_witness :
    8 ≤ ("éßàü" : String).utf8ByteSize ∧
    (validatePasswordStrength "éßàü" ≠ some msgTooShort ∧
      20 ≤ getPasswordStrength "éßàü") :=
  ⟨by decide, C10_byte_length_rune_classes.1 "éßàü" (by decide)⟩

/-- C5: any token whose algorithm tag is outside the symmetric HMAC
family is rejected by `ValidateToken` with an error, before any claims
are accepted; in particular, retagging an otherwise-valid token with a
non-HMAC algorithm makes validation fail. -/
theorem C5_reject_non_hmac (j : JWTManager) (mac : Mac) (now : Int) :
    (∀ tok : Token, tok.alg.isHMAC = false →
        validateToken j mac now tok = .error (.unexpectedSigningMethod tok.alg)) ∧
    (∀ (tok : Token) (c : Claims) (a : Alg),
        validateToken j mac now tok = .ok c → a.isHMAC = false →
        validateToken j mac now { tok with alg := a } =
          .error (.unexpectedSigningMethod a)) := by
  constructor
  · intro tok h
    unfold validateToken
    simp [h]
  · intro tok c a _ ha
    unfold validateToken
    simp [ha]

/-- C5 witness: a freshly issued access token retagged to RS256 is
rejected. -/
theorem C5_reject_non_hmac_witness :
    Alg.isHMAC .rs256 = false ∧
    validateToken (newJWTManager "") (fun _ _ _ => 0) 0
        { generateToken (newJWTManager "") (fun _ _ _ => 0) 0 ⟨1⟩ "e@x" with
            alg := .rs256 } =
      .error (.unexpectedSigningMethod .rs256) :=
  ⟨rfl, (C5_reject_non_hmac (newJWTManager "") (fun _ _ _ => 0) 0).1 _ rfl⟩

/-- C6: validating an access token issued for (id, email) with the
same key, at any time before its expiration and not before its
not-before instant, succeeds and returns claims with exactly that id
and email. -/
theorem C6_validate_roundtrip (env : String) (mac : Mac)
    (issueTime checkTime : Int) (uid : UUID) (email : String)
    (h1 : checkTime < issueTime + 24 * 3600)
    (h2 : issueTime ≤ checkTime) :
    validateToken (newJWTManager env) mac checkTime
        (generateToken (newJWTManager env) mac issueTime uid email) =
      .ok (generateToken (newJWTManager env) mac issueTime uid email).claims ∧
    (generateToken (newJWTManager env) mac issueTime uid email).claims.userID = uid ∧
    (generateToken (newJWTManager env) mac issueTime uid email).claims.email = email := by
  refine ⟨?_, rfl, rfl⟩
  unfold validateToken generateToken
  dsimp only
  split_ifs <;> first
    | rfl
    | (exfalso; simp_all [Alg.isHMAC]; omega)
    | (exfalso; simp_all [Alg.isHMAC])

/-- C6 witness: a concrete issue-and-validate round trip at the issue
instant. -/
theorem C6_validate_roundtrip_witness :
    ((0 : Int) < 0 + 24 * 3600 ∧ (0 : Int) ≤ 0) ∧
    validateToken (newJWTManager "") (fun _ _ _ => 0) 0
        (generateToken (newJWTManager "") (fun _ _ _ => 0) 0 ⟨1⟩ "a@b") =
      .ok (generateToken (newJWTManager "") (fun _ _ _ => 0) 0 ⟨1⟩ "a@b").claims ∧
    (generateToken (newJWTManager "") (fun _ _ _ => 0) 0 ⟨1⟩ "a@b").claims.userID = ⟨1⟩ ∧
    (generateToken (newJWTManager "") (fun _ _ _ => 0) 0 ⟨1⟩ "a@b").claims.email = "a@b" :=
  ⟨⟨by norm_num, le_refl 0⟩,
    C6_validate_roundtrip "" (fun _ _ _ => 0) 0 0 ⟨1⟩ "a@b" (by norm_num)
      (le_refl 0)⟩

/-- C7: every minted claims value has expiration = issued-at + 24h
(access) or issued-at + 7×24h (refresh), not-before = issued-at,
issuer `"tgfinance"`, subject the stringified user id, and refresh
tokens carry no email (the email field stays at its zero value). -/
theorem C7_minted_claims_shape (env : String) (mac : Mac) (now : Int)
    (uid : UUID) (email : String) :
    ((generateToken (newJWTManager env) mac now uid email).claims.registered.expiresAt =
      (generateToken (newJWTManager env) mac now uid email).claims.registered.issuedAt
        + 24 * 3600) ∧
    ((generateToken (newJWTManager env) mac now uid email).claims.registered.notBefore =
      (generateToken (newJWTManager env) mac now uid email).claims.registered.issuedAt) ∧
    ((generateToken (newJWTManager env) mac now uid email).claims.registered.issuer =
      "tgfinance") ∧
    ((generateToken (newJWTManager env) mac now uid email).claims.registered.subject =
      uid.render) ∧
    ((generateRefreshToken (newJWTManager env) mac now uid).claims.registered.expiresAt =
      (generateRefreshToken (newJWTManager env) mac now uid).claims.registered.issuedAt
        + 7 * 24 * 3600) ∧
    ((generateRefreshToken (newJWTManager env) mac now uid).claims.registered.notBefore =
      (generateRefreshToken (newJWTManager env) mac now uid).claims.registered.issuedAt) ∧
    ((generateRefreshToken (newJWTManager env) mac now uid).claims.registered.issuer =
      "tgfinance") ∧
    ((generateRefreshToken (newJWTManager env) mac now uid).claims.registered.subject =
      uid.render) ∧
    ((generateRefreshToken (newJWTManager env) mac now uid).claims.email = "") :=
  ⟨rfl, rfl, rfl, rfl, rfl, rfl, rfl, rfl, rfl⟩

/-- C4: the middleware admits exactly the five statically allow-listed
(path, method) pairs plus any `OPTIONS` request, passing the request on
unchanged (no identity attached); on every other request a missing
header, a header without the `"Bearer "` prefix, an empty token after
the prefix, or a token failing validation each yield a 401 response
with Content-Type `application/json` and the structured JSON error
body, without invoking the next handler. -/
theorem C4_authenticate_gate :
    (∀ path method : String,
        shouldSkipAuth path method = true ↔
          ((path, method) ∈ [("/health", "GET"), ("/metrics", "GET"),
            ("/api/v1/auth/login", "POST"), ("/api/v1/auth/register", "POST"),
            ("/api/v1/auth/refresh", "POST")] ∨ method = "OPTIONS")) ∧
    (∀ (validate : String → Except AuthError Claims) (r : Request),
        shouldSkipAuth r.path r.method = true →
        authenticate validate r = .next r) ∧
    (∀ (validate : String → Except AuthError Claims) (r : Request),
        shouldSkipAuth r.path r.method = false → r.authHeader = "" →
        authenticate validate r =
          .respond 401 "application/json"
            (errorBody 401 "Invalid or missing authorization token")) ∧
    (∀ (validate : String → Except AuthError Claims) (r : Request),
        shouldSkipAuth r.path r.method = false →
        List.isPrefixOf "Bearer ".data r.authHeader.data = false →
        authenticate validate r =
          .respond 401 "application/json"
            (errorBody 401 "Invalid or missing authorization token")) ∧
    (∀ (validate : String → Except AuthError Claims) (r : Request),
        shouldSkipAuth r.path r.method = false →
        List.isPrefixOf "Bearer ".data r.authHeader.data = true →
        String.mk (r.authHeader.data.drop 7) = "" →
        authenticate validate r =
          .respond 401 "application/json"
            (errorBody 401 "Invalid or missing authorization token")) ∧
    (∀ (validate : String → Except AuthError Claims) (r : Request)
        (tok : String) (e : AuthError),
        shouldSkipAuth r.path r.method = false →
        extractToken r = .ok tok → validate tok = .error e →
        authenticate validate r =
          .respond 401 "application/json"
            (errorBody 401 "Invalid or expired token")) := by
  refine ⟨?_, ?_, ?_, ?_, ?_, ?_⟩
  · intro path method
    unfold shouldSkipAuth
    split_ifs <;> simp_all
  · intro validate r h
    unfold authenticate
    simp [h]
  · intro validate r hskip hempty
    unfold authenticate extractToken
    simp [hskip, hempty]
  · intro validate r hskip hstart
    unfold authenticate extractToken
    by_cases hempty : r.authHeader = "" <;> simp [hskip, hstart, hempty]
  · intro validate r hskip hstart hdrop
    have hempty : ¬ r.authHeader = "" := by
      intro h
      rw [h] at hstart
      simp at hstart
    unfold authenticate extractToken
    simp [hskip, hstart, hdrop, hempty]
  · intro validate r tok e hskip hext hval
    unfold authenticate
    simp [hskip, hext, hval]

/-- C4 witness: one concrete request per branch — an allow-listed
request passed through unchanged, then 401 for a missing header, a
non-Bearer header, an empty token, and a failing validation. -/
theorem C4_authenticate_gate_witness :
    (shouldSkipAuth "/health" "GET" = true ∧
      authenticate (fun _ => .error .signatureInvalid)
          ⟨"/health", "GET", "", []⟩ =
        .next ⟨"/health", "GET", "", []⟩) ∧
    (shouldSkipAuth "/api/v1/expenses" "GET" = false ∧
      authenticate (fun _ => .error .signatureInvalid)
          ⟨"/api/v1/expenses", "GET", "", []⟩ =
        .respond 401 "application/json"
          (errorBody 401 "Invalid or missing authorization token")) ∧
    (authenticate (fun _ => .error .signatureInvalid)
          ⟨"/api/v1/expenses", "GET", "Basic abc", []⟩ =
        .respond 401 "application/json"
          (errorBody 401 "Invalid or missing authorization token")) ∧
    (authenticate (fun _ => .error .signatureInvalid)
          ⟨"/api/v1/expenses", "GET", "Bearer ", []⟩ =
        .respond 401 "application/json"
          (errorBody 401 "Invalid or missing authorization token")) ∧
    (authenticate (fun _ => .error .signatureInvalid)
          ⟨"/api/v1/expenses", "GET", "Bearer tok", []⟩ =
        .respond 401 "application/json"
          (errorBody 401 "Invalid or expired token")) :=
  ⟨⟨by decide, C4_authenticate_gate.2.1 _ _ (by decide)⟩,
    ⟨by decide, C4_authenticate_gate.2.2.1 _ _ (by decide) rfl⟩,
    C4_authenticate_gate.2.2.2.1 _ _ (by decide) (by decide),
    C4_authenticate_gate.2.2.2.2.1 _ _ (by decide) (by decide) (by decide),
    C4_authenticate_gate.2.2.2.2.2 _ _ "tok" .signatureInvalid (by decide)
      rfl rfl⟩

/-- C8: every request `Authenticate` admits past the bypass list gets
the fixed literal role `"user"` attached to its context, so
`RequireAdmin` applied afterwards always responds 403 and never
invokes the inner handler. -/
theorem C8_fixed_role_admin_unreachable
    (validate : String → Except AuthError Claims) (r rNext : Request)
    (hskip : shouldSkipAuth r.path r.method = false)
    (hnext : authenticate validate r = .next rNext) :
    ctxValue rNext.ctx "user_role" = some (.str "user") ∧
    requireAdmin rNext.ctx =
      .respond 403 "application/json"
        (errorBody 403 "Insufficient permissions") := by
  unfold authenticate at hnext
  rw [hskip] at hnext
  simp only [Bool.false_eq_true, if_false] at hnext
  cases hext : extractToken r with
  | error e =>
      rw [hext] at hnext
      exact absurd hnext (by simp)
  | ok tok =>
      rw [hext] at hnext
      dsimp only at hnext
      cases hval : validate tok with
      | error e =>
          rw [hval] at hnext
          exact absurd hnext (by simp)
      | ok claims =>
          rw [hval] at hnext
          dsimp only at hnext
          simp only [AuthOutcome.next.injEq] at hnext
          subst hnext
          exact ⟨rfl, rfl⟩

/-- C8 witness: a concrete authenticated request whose context carries
role `"user"` and on which `RequireAdmin` responds 403. -/
theorem C8_fixed_role_admin_unreachable_witness :
    (shouldSkipAuth "/api/v1/expenses" "GET" = false ∧
      authenticate (fun _ => .ok ⟨⟨7⟩, "u@x", ⟨86400, 0, 0, "tgfinance", "7"⟩⟩)
          ⟨"/api/v1/expenses", "GET", "Bearer tok", []⟩ =
        .next ⟨"/api/v1/expenses", "GET", "Bearer tok",
          [("user_role", .str "user"), ("user_email", .str "u@x"),
            ("user_id", .uuid ⟨7⟩)]⟩) ∧
    ctxValue [("user_role", GoValue.str "user"), ("user_email", GoValue.str "u@x"),
        ("user_id", GoValue.uuid ⟨7⟩)] "user_role" = some (.str "user") ∧
    requireAdmin [("user_role", GoValue.str "user"), ("user_email", GoValue.str "u@x"),
        ("user_id", GoValue.uuid ⟨7⟩)] =
      .respond 403 "application/json"
        (errorBody 403 "Insufficient permissions") :=
  ⟨⟨by decide, by decide⟩,
    C8_fixed_role_admin_unreachable
      (fun _ => .ok ⟨⟨7⟩, "u@x", ⟨86400, 0, 0, "tgfinance", "7"⟩⟩)
      ⟨"/api/v1/expenses", "GET", "Bearer tok", []⟩
      ⟨"/api/v1/expenses", "GET", "Bearer tok",
        [("user_role", GoValue.str "user"), ("user_email", GoValue.str "u@x"),
          ("user_id", GoValue.uuid ⟨7⟩)]⟩ (by decide) (by decide)⟩

/-- C1: `Authenticate` stores the `uuid.UUID` value of the user id in
the context, but `RequireUser` reads it back with the unchecked type
assertion `userID.(string)`; on any authenticated request whose path
has a `"users"` segment with a successor — matching or not — the
guard therefore panics instead of comparing strings and answering
403/pass-through. -/
theorem C1_requireUser_type_assertion_panics :
    authenticate (fun _ => .ok ⟨⟨7⟩, "u@x", ⟨86400, 0, 0, "tgfinance", "7"⟩⟩)
        ⟨"/api/v1/users/7/expenses", "GET", "Bearer tok", []⟩ =
      .next ⟨"/api/v1/users/7/expenses", "GET", "Bearer tok",
        [("user_role", .str "user"), ("user_email", .str "u@x"),
          ("user_id", .uuid ⟨7⟩)]⟩ ∧
    requireUser [("user_role", GoValue.str "user"), ("user_email", GoValue.str "u@x"),
        ("user_id", GoValue.uuid ⟨7⟩)] "/api/v1/users/7/expenses" = .panicked ∧
    requireUser [("user_role", GoValue.str "user"), ("user_email", GoValue.str "u@x"),
        ("user_id", GoValue.uuid ⟨7⟩)] "/api/v1/users/99/expenses" = .panicked := by
  refine ⟨by decide, by decide, by decide⟩

end TgFinance
